import Mathlib

/-!
Shallow embedding of the `ws6in1-proto` protocol library
(`src/error.rs`, `src/container.rs`, `src/protocol/*.rs`, `src/parser/*.rs`).

Machine integers are modelled as `Nat` with explicit `% 2^w` where the Rust
code can wrap; fallible Rust code returns `Except`/`PResult`; a Rust panic
(arithmetic underflow in debug builds, out-of-range slice index, ...) is the
explicit `PResult.panic` outcome.
-/

deriving instance DecidableEq for Except

namespace Ws6in1

/-- Error type, translated from `src/error.rs` (`enum Error`).  The
`BufferTooSmall` variant wraps the external `byteorder_cursor::BufferTooSmall`
payload; it is modelled here as carrying the number of required bytes. -/
inductive Error where
  | bufferTooSmall (needed : Nat)
  | bufferNotConsumed (trailing : Nat)
  | invalidMagic (magic : Nat)
  | unsupportedType (ty : Nat)
  | unsupportedOpcode (opcode : Nat)
  | payloadTooLarge (len : Nat)
  | unexpectedEnd (tpos : Nat)
  | invalidCharacter (idx : Nat)
  | invalidToken (tpos : Nat)
  | garbageEnd (chr : Nat)
  | fragmentDiscarded (idx : Nat)
  | messageTooLarge (len : Nat)
deriving DecidableEq

/-- Outcome of Rust code that may return a value, return an error, or panic
(e.g. on unchecked integer underflow or an out-of-range slice index). -/
inductive PResult (α : Type) where
  | ok (val : α)
  | err (e : Error)
  | panic
deriving DecidableEq

def PResult.bind {α β : Type} : PResult α → (α → PResult β) → PResult β
  | .ok a, f => f a
  | .err e, _ => .err e
  | .panic, _ => .panic

instance : Monad PResult where
  pure := PResult.ok
  bind := PResult.bind

/-- Write cursor over a destination byte buffer, modelling
`byteorder_cursor::Cursor<&mut [u8]>` as used by the serializers: `size` is
the destination buffer length, `bytes` the bytes written so far (the position
is `bytes.length`). -/
structure WCursor where
  size : Nat
  bytes : List Nat
deriving DecidableEq

/-- Fresh write cursor over a zeroed buffer of `n` bytes
(`Cursor::new(&mut buffer[..])`). -/
def WCursor.init (n : Nat) : WCursor := ⟨n, []⟩

/-- `Cursor::check_remaining`: fails with `BufferTooSmall` before any partial
write occurs. -/
def WCursor.checkRemaining (c : WCursor) (n : Nat) : PResult Unit :=
  if c.bytes.length + n ≤ c.size then .ok () else .err (.bufferTooSmall n)

/-- `Cursor::write_u8`; writing past the end of the destination is a panic
(the external cursor write is not fallible). -/
def WCursor.writeU8 (c : WCursor) (b : Nat) : PResult WCursor :=
  if c.bytes.length + 1 ≤ c.size then .ok ⟨c.size, c.bytes ++ [b % 256]⟩
  else .panic

/-- `Cursor::write_u16::<BigEndian>`. -/
def WCursor.writeU16BE (c : WCursor) (v : Nat) : PResult WCursor := do
  let c ← c.writeU8 (v / 256)
  c.writeU8 v

/-- `Cursor::write_bytes`. -/
def WCursor.writeBytes (c : WCursor) (data : List Nat) : PResult WCursor :=
  if c.bytes.length + data.length ≤ c.size then
    .ok ⟨c.size, c.bytes ++ data.map (· % 256)⟩
  else .panic

/-- Read cursor over a source byte buffer, modelling
`byteorder_cursor::Cursor<&[u8]>`. -/
structure RCursor where
  bytes : List Nat
  pos : Nat
deriving DecidableEq

/-- Fresh read cursor (`Cursor::new(&serialized[..])`). -/
def RCursor.init (bs : List Nat) : RCursor := ⟨bs, 0⟩

/-- `Cursor::check_remaining` on the read side. -/
def RCursor.checkRemaining (c : RCursor) (n : Nat) : PResult Unit :=
  if c.pos + n ≤ c.bytes.length then .ok () else .err (.bufferTooSmall n)

/-- `Cursor::remaining`. -/
def RCursor.remaining (c : RCursor) : Nat := c.bytes.length - c.pos

/-- `Cursor::read_u8` (always guarded by `check_remaining` in the sources). -/
def RCursor.readU8 (c : RCursor) : Nat × RCursor :=
  (c.bytes.getD c.pos 0, ⟨c.bytes, c.pos + 1⟩)

/-- `Cursor::read_u16::<BigEndian>`. -/
def RCursor.readU16BE (c : RCursor) : Nat × RCursor :=
  (c.bytes.getD c.pos 0 * 256 + c.bytes.getD (c.pos + 1) 0, ⟨c.bytes, c.pos + 2⟩)

/-- `Cursor::read_bytes` into a buffer of `n` bytes. -/
def RCursor.readBytes (c : RCursor) (n : Nat) : List Nat × RCursor :=
  ((c.bytes.drop c.pos).take n, ⟨c.bytes, c.pos + n⟩)

/-- `Ws6in1DataHeader` from `src/protocol/data.rs`: `item_cnt`/`item_idx` are
`u16`, `frag_cnt`/`frag_idx` are `u8` (4-bit on the wire). -/
structure Ws6in1DataHeader where
  item_cnt : Nat
  item_idx : Nat
  frag_cnt : Nat
  frag_idx : Nat
deriving DecidableEq

/-- `Ws6in1DataHeader::LENGTH`. -/
def Ws6in1DataHeader.LENGTH : Nat := 5

/-- `Ws6in1DataHeader::serialize`: two big-endian `u16`s followed by the
packed byte `frag_cnt << 4 | frag_idx` (`u8` arithmetic, hence `% 256`). -/
def Ws6in1DataHeader.serialize (h : Ws6in1DataHeader) (c : WCursor) :
    PResult WCursor := do
  let _ ← c.checkRemaining Ws6in1DataHeader.LENGTH
  let c ← c.writeU16BE h.item_cnt
  let c ← c.writeU16BE h.item_idx
  c.writeU8 (Nat.lor (h.frag_cnt <<< 4 % 256) (h.frag_idx % 256))

/-- `Ws6in1DataHeader::deserialize`. -/
def Ws6in1DataHeader.deserialize (c : RCursor) :
    PResult (Ws6in1DataHeader × RCursor) := do
  let _ ← c.checkRemaining Ws6in1DataHeader.LENGTH
  let (item_cnt, c) := c.readU16BE
  let (item_idx, c) := c.readU16BE
  let (frag, c) := c.readU8
  .ok (⟨item_cnt, item_idx, Nat.land frag 0xF0 >>> 4, Nat.land frag 0x0F⟩, c)

/-- `Ws6in1PayloadBase` from `src/protocol/data.rs`; the data container is
modelled as a byte list. -/
structure Ws6in1Payload where
  data : List Nat
deriving DecidableEq

/-- `Ws6in1PayloadBase::LENGTH`. -/
def Ws6in1Payload.LENGTH : Nat := 55

/-- `Ws6in1PayloadBase::MAX_PAYLOAD_LEN`. -/
def Ws6in1Payload.MAX_PAYLOAD_LEN : Nat := 54

/-- `Ws6in1PayloadBase::serialize`.  `len.try_into::<u8>()` fails (giving
`PayloadTooLarge`) only when `len > 255`.  The zero-padding loop bound
`MAX_PAYLOAD_LEN - len` is an unchecked `usize` subtraction: for
`54 < len ≤ 255` it underflows, which is a panic. -/
def Ws6in1Payload.serialize (p : Ws6in1Payload) (c : WCursor) :
    PResult WCursor := do
  let _ ← c.checkRemaining Ws6in1Payload.LENGTH
  let len := p.data.length
  if len ≤ 255 then do
    let c ← c.writeU8 len
    let c ← c.writeBytes p.data
    if len ≤ Ws6in1Payload.MAX_PAYLOAD_LEN then
      c.writeBytes (List.replicate (Ws6in1Payload.MAX_PAYLOAD_LEN - len) 0)
    else
      .panic
  else
    .err (.payloadTooLarge len)

/-- `Ws6in1PayloadBase::deserialize`: reads the length byte, reads 54 bytes
into a staging array, then takes the slice `&payload[0..len]`.  When the
length byte exceeds 54 that slice index is out of range, which is a panic. -/
def Ws6in1Payload.deserialize (c : RCursor) :
    PResult (Ws6in1Payload × RCursor) := do
  let _ ← c.checkRemaining Ws6in1Payload.LENGTH
  let (len, c) := c.readU8
  let (payload, c) := c.readBytes Ws6in1Payload.MAX_PAYLOAD_LEN
  if len ≤ Ws6in1Payload.MAX_PAYLOAD_LEN then
    .ok (⟨payload.take len⟩, c)
  else
    .panic

/-- `Ws6in1Footer::MAGIC` from `src/protocol/frame.rs`. -/
def footerMAGIC : Nat := 0xFD

/-- `Ws6in1Footer::LENGTH`. -/
def footerLENGTH : Nat := 3

/-- `Ws6in1Footer::serialize`: a zero checksum word and the magic byte. -/
def footerSerialize (c : WCursor) : PResult WCursor := do
  let _ ← c.checkRemaining footerLENGTH
  let c ← c.writeU16BE 0
  c.writeU8 footerMAGIC

/-- `Ws6in1Footer::deserialize`: skips the checksum, validates the magic
byte, then requires that no bytes remain in the buffer. -/
def footerDeserialize (c : RCursor) : PResult RCursor := do
  let _ ← c.checkRemaining footerLENGTH
  let (_crc, c) := c.readU16BE
  let (magic, c) := c.readU8
  if magic ≠ footerMAGIC then
    .err (.invalidMagic magic)
  else if c.remaining ≠ 0 then
    .err (.bufferNotConsumed c.remaining)
  else
    .ok c

/-- `Ws6in1DataFrameBase` from `src/protocol/data.rs`. -/
structure Ws6in1DataFrame where
  hdr : Ws6in1DataHeader
  payload : Ws6in1Payload
deriving DecidableEq

/-- `Ws6in1DataFrameBase::LENGTH`. -/
def Ws6in1DataFrame.LENGTH : Nat := 64

/-- `Ws6in1DataFrameBase::FRAME_TYPE`. -/
def Ws6in1DataFrame.FRAME_TYPE : Nat := 0xFE

/-- `Ws6in1DataFrameBase::serialize`. -/
def Ws6in1DataFrame.serialize (f : Ws6in1DataFrame) (c : WCursor) :
    PResult WCursor := do
  let _ ← c.checkRemaining Ws6in1DataFrame.LENGTH
  let c ← c.writeU8 Ws6in1DataFrame.FRAME_TYPE
  let c ← f.hdr.serialize c
  let c ← f.payload.serialize c
  footerSerialize c

/-- `Ws6in1DataFrameBase::deserialize`. -/
def Ws6in1DataFrame.deserialize (c : RCursor) :
    PResult (Ws6in1DataFrame × RCursor) := do
  let _ ← c.checkRemaining Ws6in1DataFrame.LENGTH
  let (ty, c) := c.readU8
  if ty ≠ Ws6in1DataFrame.FRAME_TYPE then
    .err (.unsupportedType ty)
  else do
    let (hdr, c) ← Ws6in1DataHeader.deserialize c
    let (payload, c) ← Ws6in1Payload.deserialize c
    let c ← footerDeserialize c
    .ok (⟨hdr, payload⟩, c)

/-- `CMD_LENGTH` from `src/protocol/cmd.rs`. -/
def CMD_LENGTH : Nat := 8

/-- `CMD_TYPE` from `src/protocol/cmd.rs`. -/
def CMD_TYPE : Nat := 0xFC

/-- `Ws6in1SetDate` (all fields `u8`). -/
structure Ws6in1SetDate where
  day : Nat
  month : Nat
  year : Nat
deriving DecidableEq

/-- `Ws6in1SetDate::OPCODE`. -/
def Ws6in1SetDate.OPCODE : Nat := 0x08

/-- `Ws6in1SetDate::serialize`. -/
def Ws6in1SetDate.serialize (d : Ws6in1SetDate) (c : WCursor) :
    PResult WCursor := do
  let _ ← c.checkRemaining CMD_LENGTH
  let c ← c.writeU8 CMD_TYPE
  let c ← c.writeU8 Ws6in1SetDate.OPCODE
  let c ← c.writeU8 d.year
  let c ← c.writeU8 d.month
  let c ← c.writeU8 d.day
  footerSerialize c

/-- `Ws6in1SetDate::deserialize`.  Note the opcode mismatch reuses
`UnsupportedType` carrying the frame-type byte. -/
def Ws6in1SetDate.deserialize (c : RCursor) :
    PResult (Ws6in1SetDate × RCursor) := do
  let _ ← c.checkRemaining CMD_LENGTH
  let (ty, c) := c.readU8
  if ty ≠ CMD_TYPE then
    .err (.unsupportedType ty)
  else do
    let (opcode, c) := c.readU8
    if opcode ≠ Ws6in1SetDate.OPCODE then
      .err (.unsupportedType ty)
    else do
      let (year, c) := c.readU8
      let (month, c) := c.readU8
      let (day, c) := c.readU8
      let c ← footerDeserialize c
      .ok (⟨day, month, year⟩, c)

/-- `Ws6in1SetTime` (all fields `u8`). -/
structure Ws6in1SetTime where
  hour : Nat
  min : Nat
  sec : Nat
deriving DecidableEq

/-- `Ws6in1SetTime::OPCODE`. -/
def Ws6in1SetTime.OPCODE : Nat := 0x09

/-- `Ws6in1SetTime::serialize`. -/
def Ws6in1SetTime.serialize (t : Ws6in1SetTime) (c : WCursor) :
    PResult WCursor := do
  let _ ← c.checkRemaining CMD_LENGTH
  let c ← c.writeU8 CMD_TYPE
  let c ← c.writeU8 Ws6in1SetTime.OPCODE
  let c ← c.writeU8 t.hour
  let c ← c.writeU8 t.min
  let c ← c.writeU8 t.sec
  footerSerialize c

/-- `Ws6in1SetTime::deserialize`. -/
def Ws6in1SetTime.deserialize (c : RCursor) :
    PResult (Ws6in1SetTime × RCursor) := do
  let _ ← c.checkRemaining CMD_LENGTH
  let (ty, c) := c.readU8
  if ty ≠ CMD_TYPE then
    .err (.unsupportedType ty)
  else do
    let (opcode, c) := c.readU8
    if opcode ≠ Ws6in1SetTime.OPCODE then
      .err (.unsupportedType ty)
    else do
      let (hour, c) := c.readU8
      let (min, c) := c.readU8
      let (sec, c) := c.readU8
      let c ← footerDeserialize c
      .ok (⟨hour, min, sec⟩, c)

/-! ## Telemetry data model (`src/parser/mod.rs`)

Rust `f32` values in the telemetry record are modelled as the exact rational
value of the decimal token they were parsed from; both sides of every
equality stated below go through the same decimal-to-value function, which
mirrors `f32` equality on the decimal telegram values. -/

/-- `Ws6in1IndoorData`. -/
structure Ws6in1IndoorData where
  temperature : ℚ
  humidity : Nat
  baro_sea : Nat
  baro_absolute : Nat
deriving DecidableEq

/-- `Ws6in1OutdoorData`. -/
structure Ws6in1OutdoorData where
  temperature : ℚ
  humidity : Nat
  rain_day : ℚ
  rain_actual : ℚ
  wind_actual : ℚ
  wind_gust : ℚ
  wind_dir : Nat
  uv_index : ℚ
  dew_point : ℚ
deriving DecidableEq

/-- `Ws6in1ExtData`. -/
structure Ws6in1ExtData where
  temperature : ℚ
  humidity : Nat
deriving DecidableEq

/-- `Ws6in1Data`: the parsed telemetry record.  The fixed-size array
`[Option<Ws6in1ExtData>; 7]` is modelled as a list of length 7. -/
structure Ws6in1Data where
  local_timestamp : Int
  indoor : Ws6in1IndoorData
  outdoor : Option Ws6in1OutdoorData
  ext : List (Option Ws6in1ExtData)
deriving DecidableEq

/-- `Ws6in1Data::EXT_SENSOR_COUNT`. -/
def Ws6in1Data.EXT_SENSOR_COUNT : Nat := 7

/-! ## Numeric token parsing

These model the external Rust standard parsers used by the telegram parser
(`str::parse::<f32>`, `str::parse::<u8>`, `str::parse::<u16>`).  Tokens are
lists of characters. -/

/-- Value of a digit list, most significant first. -/
def digitsVal (cs : List Char) : Nat :=
  cs.foldl (fun a c => a * 10 + (c.toNat - 48)) 0

/-- Longest digit prefix of a character list, plus the remainder. -/
def spanDigits : List Char → List Char × List Char
  | [] => ([], [])
  | c :: r =>
    if c.isDigit then
      let (a, b) := spanDigits r
      (c :: a, b)
    else ([], c :: r)

/-- Modelled from Rust core `FromStr` for unsigned integers: an optional
leading `+`, then one or more ASCII digits, and the value must be below the
type's bound; anything else (including `-`) fails. -/
def parseUnsigned (bound : Nat) (s : List Char) : Option Nat :=
  let cs := match s with
    | '+' :: r => r
    | _ => s
  if cs ≠ [] ∧ cs.all Char.isDigit ∧ digitsVal cs < bound then
    some (digitsVal cs)
  else none

/-- `str::parse::<u8>`. -/
def parseU8 (s : List Char) : Option Nat := parseUnsigned 256 s

/-- `str::parse::<u16>`. -/
def parseU16 (s : List Char) : Option Nat := parseUnsigned 65536 s

/-- Modelled from Rust core `f32::from_str`, restricted to the finite plain
decimal forms (`sign? (digits+ (. digits*)? | . digits+)`); exponent and the
named special values never occur in station telegrams.  The result is the
exact rational value of the decimal literal,
`sign * (intpart.fracpart) = sign * (intpart * 10^k + fracpart) / 10^k`. -/
def parseF32 (s : List Char) : Option ℚ :=
  let (sgn, cs) : Int × List Char := match s with
    | '-' :: r => (-1, r)
    | '+' :: r => (1, r)
    | _ => (1, s)
  let (ip, cs) := spanDigits cs
  let (fp, cs) : List Char × List Char := match cs with
    | '.' :: r => spanDigits r
    | _ => ([], cs)
  if cs = [] ∧ (ip ≠ [] ∨ fp ≠ []) then
    some (mkRat
      (sgn * ((digitsVal ip * 10 ^ fp.length + digitsVal fp : Nat) : Int))
      (10 ^ fp.length))
  else none

/-! ## Date and time (modelled from the external `time` crate) -/

/-- A parsed `YYYY-MM-DD` date token. -/
structure DateYMD where
  year : Nat
  month : Nat
  day : Nat
deriving DecidableEq

/-- A parsed `HH:MM` time token. -/
structure TimeHM where
  hour : Nat
  minute : Nat
deriving DecidableEq

/-- Proleptic Gregorian leap-year rule. -/
def isLeap (y : Nat) : Bool :=
  y % 4 = 0 ∧ (y % 100 ≠ 0 ∨ y % 400 = 0)

/-- Days in a month of the proleptic Gregorian calendar. -/
def daysInMonth (y m : Nat) : Nat :=
  if m = 2 then (if isLeap y then 29 else 28)
  else if m = 4 ∨ m = 6 ∨ m = 9 ∨ m = 11 then 30
  else 31

/-- Modelled from `time::Date::parse` with the format description
`[year]-[month]-[day]`: four zero-padded year digits, two month digits and
two day digits, with calendar validation. -/
def parseDate (s : List Char) : Option DateYMD :=
  match s with
  | [y1, y2, y3, y4, '-', m1, m2, '-', d1, d2] =>
    if ([y1, y2, y3, y4, m1, m2, d1, d2].all Char.isDigit) = true then
      let y := digitsVal [y1, y2, y3, y4]
      let m := digitsVal [m1, m2]
      let d := digitsVal [d1, d2]
      if 1 ≤ m ∧ m ≤ 12 ∧ 1 ≤ d ∧ d ≤ daysInMonth y m then some ⟨y, m, d⟩
      else none
    else none
  | _ => none

/-- Modelled from `time::Time::parse` with the format description
`[hour]:[minute]`: seconds default to zero. -/
def parseTime (s : List Char) : Option TimeHM :=
  match s with
  | [h1, h2, ':', m1, m2] =>
    if ([h1, h2, m1, m2].all Char.isDigit) = true then
      let h := digitsVal [h1, h2]
      let m := digitsVal [m1, m2]
      if h ≤ 23 ∧ m ≤ 59 then some ⟨h, m⟩ else none
    else none
  | _ => none

/-- Days from the Unix epoch of a proleptic Gregorian civil date
(modelled from the `time` crate's date arithmetic). -/
def daysFromCivil (y m d : Nat) : Int :=
  let y' : Int := if m ≤ 2 then (y : Int) - 1 else (y : Int)
  let era : Int := Int.fdiv y' 400
  let yoe : Nat := (y' - era * 400).toNat
  let mp : Nat := if 2 < m then m - 3 else m + 9
  let doy : Nat := (153 * mp + 2) / 5 + d - 1
  let doe : Nat := yoe * 365 + yoe / 4 - yoe / 100 + doy
  era * 146097 + (doe : Int) - 719468

/-- `PrimitiveDateTime::new(date, time).as_utc().unix_timestamp()`: the naive
local reading converted with UTC epoch arithmetic, seconds forced to 0. -/
def mkTimestamp (dt : DateYMD) (t : TimeHM) : Int :=
  daysFromCivil dt.year dt.month dt.day * 86400 + t.hour * 3600 + t.minute * 60

/-! ## UTF-8 (modelled from Rust core `str::from_utf8` / `str::as_bytes`) -/

/-- UTF-8 continuation byte test. -/
def utf8Cont (b : Nat) : Bool := 0x80 ≤ b ∧ b ≤ 0xBF

/-- Admissible second byte of a three-byte sequence (excludes overlong forms
and surrogates). -/
def utf8Second3 (b b1 : Nat) : Bool :=
  if b = 0xE0 then 0xA0 ≤ b1 ∧ b1 ≤ 0xBF
  else if b = 0xED then 0x80 ≤ b1 ∧ b1 ≤ 0x9F
  else utf8Cont b1

/-- Admissible second byte of a four-byte sequence (excludes overlong forms
and code points above `U+10FFFF`). -/
def utf8Second4 (b b1 : Nat) : Bool :=
  if b = 0xF0 then 0x90 ≤ b1 ∧ b1 ≤ 0xBF
  else if b = 0xF4 then 0x80 ≤ b1 ∧ b1 ≤ 0x8F
  else utf8Cont b1

/-- UTF-8 decoding; on failure returns the byte index of the start of the
first invalid sequence (`Utf8Error::valid_up_to`). -/
def utf8DecodeAux : List Nat → Nat → Except Nat (List Char)
  | [], _ => .ok []
  | b :: rest, i =>
    if b ≤ 0x7F then
      (Char.ofNat b :: ·) <$> utf8DecodeAux rest (i + 1)
    else if 0xC2 ≤ b ∧ b ≤ 0xDF then
      match rest with
      | b1 :: r =>
        if utf8Cont b1 then
          (Char.ofNat ((b - 0xC0) * 64 + (b1 - 0x80)) :: ·) <$>
            utf8DecodeAux r (i + 2)
        else .error i
      | [] => .error i
    else if 0xE0 ≤ b ∧ b ≤ 0xEF then
      match rest with
      | b1 :: b2 :: r =>
        if utf8Second3 b b1 ∧ utf8Cont b2 then
          (Char.ofNat ((b - 0xE0) * 4096 + (b1 - 0x80) * 64 + (b2 - 0x80)) :: ·) <$>
            utf8DecodeAux r (i + 3)
        else .error i
      | _ => .error i
    else if 0xF0 ≤ b ∧ b ≤ 0xF4 then
      match rest with
      | b1 :: b2 :: b3 :: r =>
        if utf8Second4 b b1 ∧ utf8Cont b2 ∧ utf8Cont b3 then
          (Char.ofNat ((b - 0xF0) * 262144 + (b1 - 0x80) * 4096 +
              (b2 - 0x80) * 64 + (b3 - 0x80)) :: ·) <$>
            utf8DecodeAux r (i + 4)
        else .error i
      | _ => .error i
    else .error i

/-- `core::str::from_utf8` on a byte buffer. -/
def utf8Decode (bs : List Nat) : Except Nat (List Char) := utf8DecodeAux bs 0

/-- UTF-8 encoding of one character (`char::encode_utf8`). -/
def utf8EncodeChar (c : Char) : List Nat :=
  let n := c.toNat
  if n < 0x80 then [n]
  else if n < 0x800 then [0xC0 + n / 64, 0x80 + n % 64]
  else if n < 0x10000 then
    [0xE0 + n / 4096, 0x80 + n / 64 % 64, 0x80 + n % 64]
  else
    [0xF0 + n / 262144, 0x80 + n / 4096 % 64, 0x80 + n / 64 % 64, 0x80 + n % 64]

/-- `str::as_bytes` of a character list. -/
def strBytes (cs : List Char) : List Nat := (cs.map utf8EncodeChar).flatten

/-- First byte of a token, `x.as_bytes()[0]` (tokens produced by whitespace
splitting are never empty). -/
def firstByte (t : List Char) : Nat :=
  match t with
  | [] => 0
  | c :: _ => (utf8EncodeChar c).headD 0

/-! ## Tokenizer (`TokenIterator` from `src/parser/mod.rs`) -/

/-- `str::split_whitespace`: split on whitespace, dropping empty pieces. -/
def splitWsAux : List Char → List Char → List (List Char)
  | [], cur => if cur.isEmpty then [] else [cur.reverse]
  | c :: r, cur =>
    if c.isWhitespace then
      if cur.isEmpty then splitWsAux r [] else cur.reverse :: splitWsAux r []
    else splitWsAux r (c :: cur)

/-- Whitespace-splitting of a message into tokens. -/
def splitWs (s : List Char) : List (List Char) := splitWsAux s []

/-- `TokenIterator`: the remaining tokens and the one-based count of tokens
consumed so far. -/
structure TokenIter where
  tokens : List (List Char)
  tpos : Nat
deriving DecidableEq

/-- `TokenIterator::next`. -/
def TokenIter.next (it : TokenIter) : Except Error (List Char × TokenIter) :=
  match it.tokens with
  | [] => .error (.unexpectedEnd it.tpos)
  | t :: rest => .ok (t, ⟨rest, it.tpos + 1⟩)

/-- `TokenIterator::end`. -/
def TokenIter.fin (it : TokenIter) : Except Error Unit :=
  match it.tokens with
  | [] => .ok ()
  | t :: _ => .error (.garbageEnd (firstByte t))

/-- The outdoor record construction: the `if let (Some, ..., Some)` tuple
match over all nine optional outdoor fields. -/
def mkOutdoor (t : Option ℚ) (h : Option Nat) (rd ra wa wg : Option ℚ)
    (wd : Option Nat) (uv dp : Option ℚ) : Option Ws6in1OutdoorData :=
  match t, h, rd, ra, wa, wg, wd, uv, dp with
  | some t, some h, some rd, some ra, some wa, some wg, some wd, some uv,
      some dp => some ⟨t, h, rd, ra, wa, wg, wd, uv, dp⟩
  | _, _, _, _, _, _, _, _, _ => none

/-- One extra-sensor slot: the `if let (Some, Some)` pair match. -/
def mkExt (t : Option ℚ) (h : Option Nat) : Option Ws6in1ExtData :=
  match t, h with
  | some t, some h => some ⟨t, h⟩
  | _, _ => none

/-- The extra-sensor loop: `n` repeated pairs of optional temperature and
humidity tokens. -/
def parseExtPairs : Nat → TokenIter → Except Error (List (Option Ws6in1ExtData) × TokenIter)
  | 0, it => .ok ([], it)
  | n + 1, it => do
    let (tt, it) ← it.next
    let (ht, it) ← it.next
    let (rest, it) ← parseExtPairs n it
    .ok (mkExt (parseF32 tt) (parseU8 ht) :: rest, it)

/-- `<Ws6in1Data as TryFrom<&str>>::try_from` after whitespace splitting:
the fixed positional token sequence of the telegram parser. -/
def Ws6in1Data.tryFromTokens (ts : List (List Char)) : Except Error Ws6in1Data := do
  let it : TokenIter := ⟨ts, 0⟩
  let (_history_pct, it) ← it.next
  let (t, it) ← it.next
  let date ← match parseDate t with
    | some d => Except.ok d
    | none => Except.error (Error.invalidToken it.tpos)
  let (t, it) ← it.next
  let time ← match parseTime t with
    | some v => Except.ok v
    | none => Except.error (Error.invalidToken it.tpos)
  let local_timestamp := mkTimestamp date time
  let (t, it) ← it.next
  let temperature_in ← match parseF32 t with
    | some v => Except.ok v
    | none => Except.error (Error.invalidToken it.tpos)
  let (t, it) ← it.next
  let humidity_in ← match parseU8 t with
    | some v => Except.ok v
    | none => Except.error (Error.invalidToken it.tpos)
  let (t, it) ← it.next
  let temperature_out := parseF32 t
  let (t, it) ← it.next
  let humidity_out := parseU8 t
  let (t, it) ← it.next
  let rain_day := parseF32 t
  let (t, it) ← it.next
  let rain_actual := parseF32 t
  let (t, it) ← it.next
  let wind_actual := parseF32 t
  let (t, it) ← it.next
  let wind_gust := parseF32 t
  let (t, it) ← it.next
  let wind_dir := parseU16 t
  let (_wind_octant, it) ← it.next
  let (t, it) ← it.next
  let baro_sea ← match parseU16 t with
    | some v => Except.ok v
    | none => Except.error (Error.invalidToken it.tpos)
  let (t, it) ← it.next
  let baro_absolute ← match parseU16 t with
    | some v => Except.ok v
    | none => Except.error (Error.invalidToken it.tpos)
  let (t, it) ← it.next
  let uv_index := parseF32 t
  let (t, it) ← it.next
  let dew_point := parseF32 t
  let (_unknown, it) ← it.next
  let outdoor := mkOutdoor temperature_out humidity_out rain_day rain_actual
    wind_actual wind_gust wind_dir uv_index dew_point
  let (ext, it) ← parseExtPairs Ws6in1Data.EXT_SENSOR_COUNT it
  let _ ← it.fin
  .ok ⟨local_timestamp, ⟨temperature_in, humidity_in, baro_sea, baro_absolute⟩,
    outdoor, ext⟩

/-- `<Ws6in1Data as TryFrom<&str>>::try_from`. -/
def Ws6in1Data.tryFrom (msg : List Char) : Except Error Ws6in1Data :=
  Ws6in1Data.tryFromTokens (splitWs msg)

/-! ## Fragment assembler (`src/parser/asm.rs`, `src/container.rs`) -/

/-- `Ws6in1AssemblerBase`: the stored fragment counter (`u8`) and the
accumulation buffer (`heapless::Vec<u8, MAX_MESSAGE_LEN>`). -/
structure Ws6in1Assembler where
  frag_idx : Nat
  buffer : List Nat
deriving DecidableEq

/-- `Ws6in1AssemblerBase::MAX_MESSAGE_LEN`. -/
def Ws6in1Assembler.MAX_MESSAGE_LEN : Nat := 256

/-- `Ws6in1Container::append` for the bounded container
(`heapless::Vec::extend_from_slice`): fails with `MessageTooLarge` when the
result would exceed the capacity, leaving the container unchanged. -/
def containerAppend (buf other : List Nat) : Except Error (List Nat) :=
  if buf.length + other.length ≤ Ws6in1Assembler.MAX_MESSAGE_LEN then
    .ok (buf ++ other)
  else .error (.messageTooLarge (buf.length + other.length))

/-- Interpretation of an assembled buffer: `core::str::from_utf8` mapped to
`InvalidCharacter` at `valid_up_to`, then `try_into` the telegram parser. -/
def interpretMessage (bytes : List Nat) : Except Error Ws6in1Data :=
  match utf8Decode bytes with
  | .error i => .error (.invalidCharacter i)
  | .ok chars => Ws6in1Data.tryFrom chars

/-- `Ws6in1AssemblerBase::parse`.  The accept test
`self.frag_idx == packet.hdr.frag_idx - 1` is an unchecked `u8` subtraction;
it is modelled with the wrapping two's-complement semantics
`(frag_idx + 255) % 256` (255 for a frame `frag_idx` of 0), like
`self.frag_idx += 1` as `(+ 1) % 256`. -/
def Ws6in1Assembler.parse (st : Ws6in1Assembler) (packet : Ws6in1DataFrame) :
    Except Error (Option Ws6in1Data) × Ws6in1Assembler :=
  if st.frag_idx = (packet.hdr.frag_idx + 255) % 256 then
    match containerAppend st.buffer packet.payload.data with
    | .error e => (.error e, st)
    | .ok buf =>
      let st' : Ws6in1Assembler := ⟨(st.frag_idx + 1) % 256, buf⟩
      if st'.frag_idx = packet.hdr.frag_cnt then
        match interpretMessage buf with
        | .error e => (.error e, st')
        | .ok data => (.ok (some data), ⟨0, []⟩)
      else (.ok none, st')
  else (.error (.fragmentDiscarded st.frag_idx), ⟨0, []⟩)

/-- Feeding a sequence of frames to the assembler, collecting each call's
result and the final state. -/
def Ws6in1Assembler.run (st : Ws6in1Assembler) :
    List Ws6in1DataFrame → List (Except Error (Option Ws6in1Data)) × Ws6in1Assembler
  | [] => ([], st)
  | f :: fs =>
    let (r, st') := st.parse f
    let (rs, st'') := st'.run fs
    (r :: rs, st'')

/-! ## Concrete fixtures (from the repository's test vectors) -/

/-- The literal telegram of `test_parse_data1` in `src/parser/mod.rs`. -/
def litTelegram : List Char :=
  ("3 2020-01-17 17:30 20.4 49 6.0 60 0.0 0.0 0.0 0.0 129 SE 1017 954 0 " ++
   "-1.2 --.- 27.3 57 33.4 40 --.- -- --.- -- --.- -- --.- -- --.- --").data

/-- Expected parse of `litTelegram` (the spec's literal scenario); decimal
values are written as exact fractions: `mkRat 204 10 = 20.4`, `mkRat 6 1 =
6.0`, `mkRat 0 1 = 0.0`, `mkRat (-12) 10 = -1.2`, `mkRat 273 10 = 27.3`,
`mkRat 334 10 = 33.4`. -/
def litRecord : Ws6in1Data :=
  ⟨1579282200, ⟨mkRat 204 10, 49, 1017, 954⟩,
   some ⟨mkRat 6 1, 60, mkRat 0 1, mkRat 0 1, mkRat 0 1, mkRat 0 1, 129,
     mkRat 0 1, mkRat (-12) 10⟩,
   [some ⟨mkRat 273 10, 57⟩, some ⟨mkRat 334 10, 40⟩, none, none, none,
    none, none]⟩

/-- A single-fragment frame whose payload byte `0xFF` is not valid UTF-8. -/
def c3Frame : Ws6in1DataFrame := ⟨⟨0, 0, 1, 1⟩, ⟨[0xFF]⟩⟩

/-- First frame of `test_bad_data_assembly` (`frag_cnt = 3`, `frag_idx = 1`,
payload `b"foo "`). -/
def c4Frame : Ws6in1DataFrame := ⟨⟨0, 0, 3, 1⟩, ⟨strBytes "foo ".data⟩⟩

/-- Fragment 1 of `test_good_data_assembly`. -/
def asmFrame1 : Ws6in1DataFrame :=
  ⟨⟨0, 0, 3, 1⟩, ⟨strBytes "3 2020-01-17 17:30 20.4 49 6.0 60 0.0 0.0 0.0 0.0 129 ".data⟩⟩

/-- Fragment 2 of `test_good_data_assembly`. -/
def asmFrame2 : Ws6in1DataFrame :=
  ⟨⟨0, 0, 3, 2⟩, ⟨strBytes "SE 1017 954 0 -1.2 --.- 27.3 57 33.4 40 --.- -- --.- -".data⟩⟩

/-- Fragment 3 of `test_good_data_assembly`. -/
def asmFrame3 : Ws6in1DataFrame :=
  ⟨⟨0, 0, 3, 3⟩, ⟨strBytes "- --.- -- --.- -- --.- --".data⟩⟩

/-- Sentinel token `"--.-"`. -/
def sentinelDashDot : List Char := "--.-".data

/-- Sentinel token `"--"`. -/
def sentinelDashes : List Char := "--".data

/-- The 32 tokens of `litTelegram`, written out. -/
def c7Tokens : List (List Char) :=
  ["3".data, "2020-01-17".data, "17:30".data, "20.4".data, "49".data,
   "6.0".data, "60".data, "0.0".data, "0.0".data, "0.0".data, "0.0".data,
   "129".data, "SE".data, "1017".data, "954".data, "0".data, "-1.2".data,
   "--.-".data, "27.3".data, "57".data, "33.4".data, "40".data, "--.-".data,
   "--".data, "--.-".data, "--".data, "--.-".data, "--".data, "--.-".data,
   "--".data, "--.-".data, "--".data]

/-- The record produced from `c7Tokens`, with each optional field expressed
through its token parse. -/
def c7Record : Ws6in1Data :=
  ⟨mkTimestamp ⟨2020, 1, 17⟩ ⟨17, 30⟩, ⟨mkRat 204 10, 49, 1017, 954⟩,
   mkOutdoor (parseF32 "6.0".data) (parseU8 "60".data) (parseF32 "0.0".data)
     (parseF32 "0.0".data) (parseF32 "0.0".data) (parseF32 "0.0".data)
     (parseU16 "129".data) (parseF32 "0".data) (parseF32 "-1.2".data),
   [mkExt (parseF32 "27.3".data) (parseU8 "57".data),
    mkExt (parseF32 "33.4".data) (parseU8 "40".data),
    mkExt (parseF32 "--.-".data) (parseU8 "--".data),
    mkExt (parseF32 "--.-".data) (parseU8 "--".data),
    mkExt (parseF32 "--.-".data) (parseU8 "--".data),
    mkExt (parseF32 "--.-".data) (parseU8 "--".data),
    mkExt (parseF32 "--.-".data) (parseU8 "--".data)]⟩

/-- Wire image of a data frame under the validity bounds (used to state the
round-trip): type byte, big-endian `item_cnt`/`item_idx`, packed fragment
byte, length byte, zero-padded payload, checksum zeros and magic. -/
def frameBytes (f : Ws6in1DataFrame) : List Nat :=
  0xFE :: (f.hdr.item_cnt / 256 % 256) :: (f.hdr.item_cnt % 256) ::
  (f.hdr.item_idx / 256 % 256) :: (f.hdr.item_idx % 256) ::
  (Nat.lor (f.hdr.frag_cnt <<< 4 % 256) (f.hdr.frag_idx % 256) % 256) ::
  f.payload.data.length ::
  (f.payload.data ++ List.replicate (54 - f.payload.data.length) 0 ++
    [0, 0, 0xFD])

/-- Wire image of a `SetDate` command. -/
def setDateBytes (d : Ws6in1SetDate) : List Nat :=
  [0xFC, 0x08, d.year, d.month, d.day, 0, 0, 0xFD]

/-- Wire image of a `SetTime` command. -/
def setTimeBytes (t : Ws6in1SetTime) : List Nat :=
  [0xFC, 0x09, t.hour, t.min, t.sec, 0, 0, 0xFD]

/-! ## Helper lemmas -/

/-- Bind of a successful `PResult`. -/
theorem PResult.bind_ok {α β : Type} (a : α) (f : α → PResult β) :
    PResult.bind (.ok a) f = f a := rfl

/-- A capacity check that fits succeeds. -/
theorem checkRemainingW_ok (c : WCursor) (n : Nat)
    (h : c.bytes.length + n ≤ c.size) : c.checkRemaining n = .ok () := by
  simp [WCursor.checkRemaining, h]

/-- A byte write within bounds succeeds. -/
theorem writeU8_ok (c : WCursor) (b : Nat) (h : c.bytes.length + 1 ≤ c.size) :
    c.writeU8 b = .ok ⟨c.size, c.bytes ++ [b % 256]⟩ := by
  simp [WCursor.writeU8, h]

/-- A big-endian word write within bounds succeeds. -/
theorem writeU16BE_ok (c : WCursor) (v : Nat)
    (h : c.bytes.length + 2 ≤ c.size) :
    c.writeU16BE v = .ok ⟨c.size, c.bytes ++ [v / 256 % 256, v % 256]⟩ := by
  rw [WCursor.writeU16BE]
  show PResult.bind (c.writeU8 (v / 256)) _ = _
  rw [writeU8_ok c (v / 256) (by omega), PResult.bind_ok,
    writeU8_ok _ v (by simp; omega)]
  simp

/-- A block write within bounds succeeds. -/
theorem writeBytes_ok (c : WCursor) (data : List Nat)
    (h : c.bytes.length + data.length ≤ c.size) :
    c.writeBytes data = .ok ⟨c.size, c.bytes ++ data.map (· % 256)⟩ := by
  simp [WCursor.writeBytes, h]

/-- Unpacking the packed fragment byte recovers both 4-bit fields. -/
theorem packed_decomp (c i : Nat) (hc : c ≤ 15) (hi : i ≤ 15) :
    (Nat.land (Nat.lor (c <<< 4 % 256) (i % 256) % 256) 0xF0 >>> 4 = c ∧
     Nat.land (Nat.lor (c <<< 4 % 256) (i % 256) % 256) 0x0F = i) := by
  interval_cases c <;> interval_cases i <;> decide

/-- Serializing a valid data frame produces exactly its wire image. -/
theorem dataFrame_serialize_eq (f : Ws6in1DataFrame) (size : Nat)
    (hsize : 64 ≤ size) (hlen : f.payload.data.length ≤ 54)
    (helem : ∀ b ∈ f.payload.data, b < 256) :
    f.serialize (WCursor.init size) = .ok ⟨size, frameBytes f⟩ := by
  have hmap : f.payload.data.map (· % 256) = f.payload.data :=
    (List.map_congr_left fun b hb => Nat.mod_eq_of_lt (helem b hb)).trans
      (List.map_id _)
  simp only [Ws6in1DataFrame.serialize, Ws6in1DataHeader.serialize,
    Ws6in1Payload.serialize, footerSerialize, bind, Ws6in1Payload.LENGTH,
    Ws6in1Payload.MAX_PAYLOAD_LEN, Ws6in1DataFrame.LENGTH,
    Ws6in1DataHeader.LENGTH, footerLENGTH, Ws6in1DataFrame.FRAME_TYPE,
    footerMAGIC, CMD_LENGTH]
  rw [checkRemainingW_ok]
  simp only [PResult.bind]
  rw [writeU8_ok]
  simp only [PResult.bind]
  rw [checkRemainingW_ok]
  simp only [PResult.bind]
  rw [writeU16BE_ok]
  simp only [PResult.bind]
  rw [writeU16BE_ok]
  simp only [PResult.bind]
  rw [writeU8_ok]
  simp only [PResult.bind]
  rw [checkRemainingW_ok]
  simp only [PResult.bind]
  rw [if_pos (show f.payload.data.length ≤ 255 by omega)]
  rw [writeU8_ok]
  simp only [PResult.bind]
  rw [writeBytes_ok]
  simp only [PResult.bind]
  rw [if_pos hlen]
  rw [writeBytes_ok]
  simp only [PResult.bind]
  rw [checkRemainingW_ok]
  simp only [PResult.bind]
  rw [writeU16BE_ok]
  simp only [PResult.bind]
  rw [writeU8_ok]
  · simp [WCursor.init, frameBytes, hmap, List.map_replicate,
      Nat.mod_eq_of_lt (show f.payload.data.length < 256 by omega)]
  all_goals simp [WCursor.init, hmap]
  all_goals omega

/-- Deserializing the wire image of a valid data frame recovers it. -/
theorem dataFrame_deserialize_eq (f : Ws6in1DataFrame)
    (hlen : f.payload.data.length ≤ 54) (hcnt : f.hdr.item_cnt < 65536)
    (hidx : f.hdr.item_idx < 65536) (hfc : f.hdr.frag_cnt ≤ 15)
    (hfi : f.hdr.frag_idx ≤ 15) :
    Ws6in1DataFrame.deserialize (RCursor.init (frameBytes f)) =
      .ok (f, ⟨frameBytes f, 64⟩) := by
  have hmid : (f.payload.data ++
      List.replicate (54 - f.payload.data.length) 0).length = 54 := by
    simp
    omega
  have hblen : (frameBytes f).length = 64 := by
    simp [frameBytes]
    omega
  have h0 : (frameBytes f).getD 0 0 = 0xFE := by simp [frameBytes]
  have h1 : (frameBytes f).getD 1 0 = f.hdr.item_cnt / 256 % 256 := by
    simp [frameBytes]
  have h2 : (frameBytes f).getD 2 0 = f.hdr.item_cnt % 256 := by
    simp [frameBytes]
  have h3 : (frameBytes f).getD 3 0 = f.hdr.item_idx / 256 % 256 := by
    simp [frameBytes]
  have h4 : (frameBytes f).getD 4 0 = f.hdr.item_idx % 256 := by
    simp [frameBytes]
  have h5 : (frameBytes f).getD 5 0 =
      Nat.lor (f.hdr.frag_cnt <<< 4 % 256) (f.hdr.frag_idx % 256) % 256 := by
    simp [frameBytes]
  have h6 : (frameBytes f).getD 6 0 = f.payload.data.length := by
    simp [frameBytes]
  have hfb : frameBytes f =
      ((0xFE :: (f.hdr.item_cnt / 256 % 256) :: (f.hdr.item_cnt % 256) ::
        (f.hdr.item_idx / 256 % 256) :: (f.hdr.item_idx % 256) ::
        (Nat.lor (f.hdr.frag_cnt <<< 4 % 256) (f.hdr.frag_idx % 256) % 256) ::
        f.payload.data.length ::
        (f.payload.data ++ List.replicate (54 - f.payload.data.length) 0)) ++
       [0, 0, 0xFD]) := by
    simp [frameBytes]
  have hpre : (0xFE :: (f.hdr.item_cnt / 256 % 256) :: (f.hdr.item_cnt % 256) ::
      (f.hdr.item_idx / 256 % 256) :: (f.hdr.item_idx % 256) ::
      (Nat.lor (f.hdr.frag_cnt <<< 4 % 256) (f.hdr.frag_idx % 256) % 256) ::
      f.payload.data.length ::
      (f.payload.data ++ List.replicate (54 - f.payload.data.length) 0)).length
      = 61 := by
    simp
    omega
  have h61 : (frameBytes f).getD 61 0 = 0 := by
    rw [hfb, List.getD_append_right _ _ _ _ (by rw [hpre])]
    simp [hpre]
  have h62 : (frameBytes f).getD 62 0 = 0 := by
    rw [hfb, List.getD_append_right _ _ _ _ (by rw [hpre]; omega)]
    simp [hpre]
  have h63 : (frameBytes f).getD 63 0 = 0xFD := by
    rw [hfb, List.getD_append_right _ _ _ _ (by rw [hpre]; omega)]
    simp [hpre]
  have hc : f.hdr.item_cnt / 256 % 256 * 256 + f.hdr.item_cnt % 256 =
      f.hdr.item_cnt := by omega
  have hi : f.hdr.item_idx / 256 % 256 * 256 + f.hdr.item_idx % 256 =
      f.hdr.item_idx := by omega
  have hpk := packed_decomp f.hdr.frag_cnt f.hdr.frag_idx hfc hfi
  have hdrop : (frameBytes f).drop 7 =
      (f.payload.data ++ List.replicate (54 - f.payload.data.length) 0) ++
      [0, 0, 0xFD] := by
    simp [frameBytes]
  have htake1 : (f.payload.data ++
      (List.replicate (54 - f.payload.data.length) 0 ++ [0, 0, 0xFD])).take 54 =
      f.payload.data ++ List.replicate (54 - f.payload.data.length) 0 := by
    rw [← List.append_assoc]
    exact List.take_left' hmid
  have htake2 : (f.payload.data ++
      List.replicate (54 - f.payload.data.length) 0).take
      f.payload.data.length = f.payload.data := List.take_left _ _
  unfold Ws6in1DataFrame.deserialize Ws6in1DataHeader.deserialize
    Ws6in1Payload.deserialize footerDeserialize
  simp only [RCursor.init, RCursor.checkRemaining, RCursor.readU8,
    RCursor.readU16BE, RCursor.readBytes, RCursor.remaining, bind,
    PResult.bind, Ws6in1DataFrame.LENGTH, Ws6in1DataHeader.LENGTH,
    Ws6in1Payload.LENGTH, Ws6in1Payload.MAX_PAYLOAD_LEN, footerLENGTH,
    footerMAGIC, Ws6in1DataFrame.FRAME_TYPE, hblen]
  simp [h0, h1, h2, h3, h4, h5, h6, h61, h62, h63, hc, hi, hpk.1, hpk.2,
    hdrop, htake1, htake2, hlen, hblen, -List.getD_eq_getElem?_getD]

/-- Serializing a `SetDate` command produces exactly its wire image. -/
theorem setDate_serialize_eq (d : Ws6in1SetDate) (size : Nat) (h8 : 8 ≤ size)
    (hd : d.day < 256) (hm : d.month < 256) (hy : d.year < 256) :
    d.serialize (WCursor.init size) = .ok ⟨size, setDateBytes d⟩ := by
  simp only [Ws6in1SetDate.serialize, footerSerialize, bind]
  rw [checkRemainingW_ok]
  simp only [PResult.bind]
  rw [writeU8_ok]
  simp only [PResult.bind]
  rw [writeU8_ok]
  simp only [PResult.bind]
  rw [writeU8_ok]
  simp only [PResult.bind]
  rw [writeU8_ok]
  simp only [PResult.bind]
  rw [writeU8_ok]
  simp only [PResult.bind]
  rw [checkRemainingW_ok]
  simp only [PResult.bind]
  rw [writeU16BE_ok]
  simp only [PResult.bind]
  rw [writeU8_ok]
  · simp [WCursor.init, setDateBytes, Nat.mod_eq_of_lt hd,
      Nat.mod_eq_of_lt hm, Nat.mod_eq_of_lt hy, CMD_TYPE,
      Ws6in1SetDate.OPCODE, footerMAGIC]
  all_goals simp [WCursor.init, CMD_LENGTH, footerLENGTH]
  all_goals omega

/-- Deserializing the wire image of a `SetDate` command recovers it. -/
theorem setDate_deserialize_eq (d : Ws6in1SetDate) :
    Ws6in1SetDate.deserialize (RCursor.init (setDateBytes d)) =
      .ok (d, ⟨setDateBytes d, 8⟩) := by
  simp [Ws6in1SetDate.deserialize, footerDeserialize, RCursor.init,
    RCursor.checkRemaining, RCursor.readU8, RCursor.readU16BE,
    RCursor.remaining, setDateBytes, bind, PResult.bind, List.getD,
    footerLENGTH, CMD_LENGTH, footerMAGIC, Ws6in1SetDate.OPCODE, CMD_TYPE]

/-- Serializing a `SetTime` command produces exactly its wire image. -/
theorem setTime_serialize_eq (t : Ws6in1SetTime) (size : Nat) (h8 : 8 ≤ size)
    (hh : t.hour < 256) (hm : t.min < 256) (hs : t.sec < 256) :
    t.serialize (WCursor.init size) = .ok ⟨size, setTimeBytes t⟩ := by
  simp only [Ws6in1SetTime.serialize, footerSerialize, bind]
  rw [checkRemainingW_ok]
  simp only [PResult.bind]
  rw [writeU8_ok]
  simp only [PResult.bind]
  rw [writeU8_ok]
  simp only [PResult.bind]
  rw [writeU8_ok]
  simp only [PResult.bind]
  rw [writeU8_ok]
  simp only [PResult.bind]
  rw [writeU8_ok]
  simp only [PResult.bind]
  rw [checkRemainingW_ok]
  simp only [PResult.bind]
  rw [writeU16BE_ok]
  simp only [PResult.bind]
  rw [writeU8_ok]
  · simp [WCursor.init, setTimeBytes, Nat.mod_eq_of_lt hh,
      Nat.mod_eq_of_lt hm, Nat.mod_eq_of_lt hs, CMD_TYPE,
      Ws6in1SetTime.OPCODE, footerMAGIC]
  all_goals simp [WCursor.init, CMD_LENGTH, footerLENGTH]
  all_goals omega

/-- Deserializing the wire image of a `SetTime` command recovers it. -/
theorem setTime_deserialize_eq (t : Ws6in1SetTime) :
    Ws6in1SetTime.deserialize (RCursor.init (setTimeBytes t)) =
      .ok (t, ⟨setTimeBytes t, 8⟩) := by
  simp [Ws6in1SetTime.deserialize, footerDeserialize, RCursor.init,
    RCursor.checkRemaining, RCursor.readU8, RCursor.readU16BE,
    RCursor.remaining, setTimeBytes, bind, PResult.bind, List.getD,
    footerLENGTH, CMD_LENGTH, footerMAGIC, Ws6in1SetTime.OPCODE, CMD_TYPE]

/-- The nine-way tuple match populating the outdoor record is `some` exactly
when all nine optional fields are `some`. -/
theorem mkOutdoor_isSome (t : Option ℚ) (h : Option Nat)
    (rd ra wa wg : Option ℚ) (wd : Option Nat) (uv dp : Option ℚ) :
    (mkOutdoor t h rd ra wa wg wd uv dp).isSome = true ↔
      t.isSome = true ∧ h.isSome = true ∧ rd.isSome = true ∧
      ra.isSome = true ∧ wa.isSome = true ∧ wg.isSome = true ∧
      wd.isSome = true ∧ uv.isSome = true ∧ dp.isSome = true := by
  cases t <;> cases h <;> cases rd <;> cases ra <;> cases wa <;> cases wg <;>
    cases wd <;> cases uv <;> cases dp <;> simp [mkOutdoor]

/-- Rejection path of the assembler: whenever the accept test fails, the
pre-discard index is reported and the state is reset. -/
theorem asmParse_reject (st : Ws6in1Assembler) (p : Ws6in1DataFrame)
    (h : st.frag_idx ≠ (p.hdr.frag_idx + 255) % 256) :
    st.parse p = (.error (.fragmentDiscarded st.frag_idx), ⟨0, []⟩) := by
  simp [Ws6in1Assembler.parse, h]

/-- Symbolic evaluation of the telegram token sequence: 32 tokens are
consumed; a mandatory-field parse is assumed successful via hypotheses,
optional fields stay symbolic; the 33rd token (if any) is garbage. -/
theorem tryFromTokens_eval
    (t1 t2 t3 t4 t5 t6 t7 t8 t9 t10 t11 t12 t13 t14 t15 t16 t17 t18 t19 t20
      t21 t22 t23 t24 t25 t26 t27 t28 t29 t30 t31 t32 : List Char)
    (rest : List (List Char)) (pd : DateYMD) (pt : TimeHM) (ti : ℚ)
    (hi bs ba : Nat)
    (h2 : parseDate t2 = some pd) (h3 : parseTime t3 = some pt)
    (h4 : parseF32 t4 = some ti) (h5 : parseU8 t5 = some hi)
    (h14 : parseU16 t14 = some bs) (h15 : parseU16 t15 = some ba) :
    Ws6in1Data.tryFromTokens
      (t1 :: t2 :: t3 :: t4 :: t5 :: t6 :: t7 :: t8 :: t9 :: t10 :: t11 ::
        t12 :: t13 :: t14 :: t15 :: t16 :: t17 :: t18 :: t19 :: t20 :: t21 ::
        t22 :: t23 :: t24 :: t25 :: t26 :: t27 :: t28 :: t29 :: t30 :: t31 ::
        t32 :: rest) =
      (match rest with
      | [] => .ok ⟨mkTimestamp pd pt, ⟨ti, hi, bs, ba⟩,
          mkOutdoor (parseF32 t6) (parseU8 t7) (parseF32 t8) (parseF32 t9)
            (parseF32 t10) (parseF32 t11) (parseU16 t12) (parseF32 t16)
            (parseF32 t17),
          [mkExt (parseF32 t19) (parseU8 t20), mkExt (parseF32 t21) (parseU8 t22),
           mkExt (parseF32 t23) (parseU8 t24), mkExt (parseF32 t25) (parseU8 t26),
           mkExt (parseF32 t27) (parseU8 t28), mkExt (parseF32 t29) (parseU8 t30),
           mkExt (parseF32 t31) (parseU8 t32)]⟩
      | t :: _ => .error (.garbageEnd (firstByte t))) := by
  simp only [Ws6in1Data.tryFromTokens, TokenIter.next, parseExtPairs,
    TokenIter.fin, Ws6in1Data.EXT_SENSOR_COUNT, h2, h3, h4, h5, h14, h15,
    bind, Except.bind]
  cases rest <;> rfl

/-- Unfolding one step of feeding a frame list to the assembler. -/
theorem run_cons (st : Ws6in1Assembler) (f : Ws6in1DataFrame)
    (fs : List Ws6in1DataFrame) :
    st.run (f :: fs) = ((st.parse f).1 :: ((st.parse f).2.run fs).1,
      ((st.parse f).2.run fs).2) := by
  simp only [Ws6in1Assembler.run]

/-- Accumulation invariant: starting from a stored counter `base` and buffer
`buf`, an in-order frame suffix (indices `base + 1, ...` up to `N`) produces
`none` for every non-final frame and the parsed record on the final one,
leaving the assembler Idle. -/
theorem run_accum (record : Ws6in1Data) (N : Nat) (hN : N ≤ 15)
    (frames : List Ws6in1DataFrame) :
    ∀ (base : Nat) (buf : List Nat), frames ≠ [] →
      base + frames.length = N →
      (∀ i (h : i < frames.length), (frames.get ⟨i, h⟩).hdr.frag_cnt = N ∧
        (frames.get ⟨i, h⟩).hdr.frag_idx = base + i + 1) →
      buf.length + ((frames.map fun f => f.payload.data).flatten).length ≤ 256 →
      interpretMessage (buf ++ (frames.map fun f => f.payload.data).flatten) =
        .ok record →
      Ws6in1Assembler.run ⟨base, buf⟩ frames =
        (List.replicate (frames.length - 1) (.ok none) ++ [.ok (some record)],
          ⟨0, []⟩) := by
  induction frames with
  | nil => intro base buf hne; exact absurd rfl hne
  | cons f fs ih =>
    intro base buf _ hlen hhdr hcap hint
    obtain ⟨hcnt, hidx⟩ := hhdr 0 (by simp)
    simp only [List.get] at hcnt hidx
    have hlen' : base + (fs.length + 1) = N := by simpa using hlen
    have hacc : base = (f.hdr.frag_idx + 255) % 256 := by rw [hidx]; omega
    have hcapf : buf.length + f.payload.data.length ≤ 256 := by
      simp only [List.map_cons, List.flatten_cons, List.length_append] at hcap
      omega
    have happ : containerAppend buf f.payload.data =
        .ok (buf ++ f.payload.data) := by
      simp [containerAppend, Ws6in1Assembler.MAX_MESSAGE_LEN, hcapf]
    have hb1 : (base + 1) % 256 = base + 1 := Nat.mod_eq_of_lt (by omega)
    cases fs with
    | nil =>
      have hl : base + 1 = N := by simpa using hlen'
      have hcompl : base + 1 = f.hdr.frag_cnt := by rw [hcnt]; omega
      have hintf : interpretMessage (buf ++ f.payload.data) = .ok record := by
        simpa using hint
      have hparse : Ws6in1Assembler.parse ⟨base, buf⟩ f =
          (.ok (some record), ⟨0, []⟩) := by
        simp [Ws6in1Assembler.parse, ← hacc, happ, hb1, hcompl, hintf]
        omega
      rw [run_cons, hparse]
      rfl
    | cons f2 fs2 =>
      have hl : base + (fs2.length + 2) = N := by
        simp only [List.length_cons] at hlen'
        omega
      have hncompl : base + 1 ≠ f.hdr.frag_cnt := by rw [hcnt]; omega
      have hparse : Ws6in1Assembler.parse ⟨base, buf⟩ f =
          (.ok none, ⟨base + 1, buf ++ f.payload.data⟩) := by
        simp [Ws6in1Assembler.parse, ← hacc, happ, hb1, hncompl]
      have hhdr' : ∀ i (h : i < (f2 :: fs2).length),
          ((f2 :: fs2).get ⟨i, h⟩).hdr.frag_cnt = N ∧
          ((f2 :: fs2).get ⟨i, h⟩).hdr.frag_idx = base + 1 + i + 1 := by
        intro i h
        have := hhdr (i + 1) (by simpa using Nat.succ_lt_succ h)
        simp only [List.get] at this
        refine ⟨this.1, ?_⟩
        rw [this.2]
        omega
      have hcap' : (buf ++ f.payload.data).length +
          (((f2 :: fs2).map fun g => g.payload.data).flatten).length ≤ 256 := by
        simp only [List.map_cons, List.flatten_cons, List.length_append] at hcap ⊢
        omega
      have hint' : interpretMessage ((buf ++ f.payload.data) ++
          ((f2 :: fs2).map fun g => g.payload.data).flatten) = .ok record := by
        simp only [List.map_cons, List.flatten_cons] at hint
        rw [List.append_assoc]
        simpa using hint
      have hrec := ih (base + 1) (buf ++ f.payload.data) (by simp)
        (by simp only [List.length_cons]; omega) hhdr' hcap' hint'
      rw [run_cons, hparse]
      dsimp only
      rw [hrec]
      simp [List.replicate_succ]

/-! ## Claim theorems -/

set_option maxRecDepth 8192 in
/-- C1: the spec demands that encoding a payload of content length 55 (and
any length above 54) fail with a payload-too-large error and never trap or
wrap.  The code only returns `PayloadTooLarge` when the length exceeds 255
(the `usize → u8` conversion); for length 55 it reaches the pad-count
subtraction `MAX_PAYLOAD_LEN - len`, which underflows: a panic, not an
error.  `PayloadTooLarge` is produced for a length of 300, by contrast. -/
theorem C1_encode_len55_panics_not_error :
    Ws6in1Payload.serialize ⟨List.replicate 55 0⟩ (WCursor.init 64) = .panic ∧
    Ws6in1Payload.serialize ⟨List.replicate 55 0⟩ (WCursor.init 64) ≠
      .err (.payloadTooLarge 55) ∧
    Ws6in1Payload.serialize ⟨List.replicate 300 0⟩ (WCursor.init 400) =
      .err (.payloadTooLarge 300) := by
  decide

/-- C2 counterexample: deserializing a payload whose wire length byte is 55
is not total — the slice `&payload[0..len]` of the 54-byte staging array is
out of range, a panic. -/
theorem C2_cex_len_byte_55_traps :
    Ws6in1Payload.deserialize (RCursor.init (55 :: List.replicate 54 0)) =
      .panic := by
  decide

/-- C2 (amended): with at least 55 bytes remaining, payload deserialization
returns a value with content length equal to the wire length byte — hence
between 0 and 54 — whenever that byte is at most 54; when the length byte
exceeds 54 the code panics instead of returning. -/
theorem C2_amended_payload_decode_bounded (c : RCursor)
    (hrem : c.pos + 55 ≤ c.bytes.length) :
    (c.bytes.getD c.pos 0 ≤ 54 →
      Ws6in1Payload.deserialize c =
        .ok (⟨((c.bytes.drop (c.pos + 1)).take 54).take (c.bytes.getD c.pos 0)⟩,
          ⟨c.bytes, c.pos + 55⟩) ∧
      (((c.bytes.drop (c.pos + 1)).take 54).take (c.bytes.getD c.pos 0)).length =
        c.bytes.getD c.pos 0) ∧
    (54 < c.bytes.getD c.pos 0 → Ws6in1Payload.deserialize c = .panic) := by
  have hck : c.checkRemaining 55 = .ok () := by
    simp [RCursor.checkRemaining, hrem]
  constructor
  · intro hle
    constructor
    · simp only [Ws6in1Payload.deserialize, RCursor.readU8, RCursor.readBytes,
        Ws6in1Payload.LENGTH, hck, bind, PResult.bind,
        Ws6in1Payload.MAX_PAYLOAD_LEN, hle, if_true, show c.pos + 1 + 54 =
        c.pos + 55 from by omega]
    · simp only [List.length_take, List.length_drop]
      omega
  · intro hgt
    simp only [Ws6in1Payload.deserialize, RCursor.readU8, RCursor.readBytes,
      Ws6in1Payload.LENGTH, hck, bind, PResult.bind,
      Ws6in1Payload.MAX_PAYLOAD_LEN]
    rw [if_neg (by omega)]

/-- C2 witness: the amended theorem applied to the repository's payload test
vector (length byte 4, payload `[1, 2, 3, 4]`). -/
theorem C2_amended_payload_decode_bounded_witness :
    Ws6in1Payload.deserialize
        (RCursor.init (4 :: 1 :: 2 :: 3 :: 4 :: List.replicate 50 0)) =
      .ok (⟨[1, 2, 3, 4]⟩, ⟨4 :: 1 :: 2 :: 3 :: 4 :: List.replicate 50 0, 55⟩) := by
  have h := ((C2_amended_payload_decode_bounded
    (RCursor.init (4 :: 1 :: 2 :: 3 :: 4 :: List.replicate 50 0))
    (by decide)).1 (by decide)).1
  simpa using h

/-- C3 counterexample: a completing frame whose accumulated bytes are
invalid UTF-8 returns the interpretation error while the assembler still
holds the stale state (`frag_idx = 1`, non-empty buffer): the reset happens
after successful interpretation, not before interpretation is attempted. -/
theorem C3_cex_error_leaves_stale_state :
    (Ws6in1Assembler.parse ⟨0, []⟩ c3Frame).1 = .error (.invalidCharacter 0) ∧
    (Ws6in1Assembler.parse ⟨0, []⟩ c3Frame).2.frag_idx = 1 ∧
    (Ws6in1Assembler.parse ⟨0, []⟩ c3Frame).2.buffer = [0xFF] := by
  decide

/-- C3 (amended): on a completing fragment the assembler attempts
interpretation first and resets to Idle only on success; an interpretation
failure is returned with the assembler still holding the accumulated state
(counter equal to the frame's fragment count, buffer retained). -/
theorem C3_amended_reset_only_after_success (st : Ws6in1Assembler)
    (p : Ws6in1DataFrame) (buf : List Nat)
    (hacc : st.frag_idx = (p.hdr.frag_idx + 255) % 256)
    (happ : containerAppend st.buffer p.payload.data = .ok buf)
    (hcmp : (st.frag_idx + 1) % 256 = p.hdr.frag_cnt) :
    (∀ e, interpretMessage buf = .error e →
      st.parse p = (.error e, ⟨(st.frag_idx + 1) % 256, buf⟩)) ∧
    (∀ d, interpretMessage buf = .ok d →
      st.parse p = (.ok (some d), ⟨0, []⟩)) := by
  constructor
  · intro e hint
    simp [Ws6in1Assembler.parse, ← hacc, happ, hcmp, hint]
  · intro d hint
    simp [Ws6in1Assembler.parse, ← hacc, happ, hcmp, hint]

/-- C3 witness: the amended theorem applied to the invalid-UTF-8 frame. -/
theorem C3_amended_reset_only_after_success_witness :
    Ws6in1Assembler.parse ⟨0, []⟩ c3Frame = (.error (.invalidCharacter 0), ⟨1, [0xFF]⟩) := by
  have h := (C3_amended_reset_only_after_success ⟨0, []⟩ c3Frame [0xFF]
    (by decide) (by decide) (by decide)).1 (.invalidCharacter 0) (by decide)
  simpa using h

/-- C4: a frame whose `frag_idx` is not the stored counter plus one is
rejected with a fragment-discarded error carrying the pre-discard stored
counter, and the state resets to Idle; feeding `frag_idx = 1` twice fails
with index 1 on the second call and a third `frag_idx = 1` frame is then
accepted as a fresh start. -/
theorem C4_discard_reports_prediscard_and_self_heals :
    (∀ (st : Ws6in1Assembler) (p : Ws6in1DataFrame), st.frag_idx ≤ 15 →
      p.hdr.frag_idx ≤ 15 → p.hdr.frag_idx ≠ st.frag_idx + 1 →
      st.parse p = (.error (.fragmentDiscarded st.frag_idx), ⟨0, []⟩)) ∧
    Ws6in1Assembler.run ⟨0, []⟩ [c4Frame, c4Frame, c4Frame] =
      ([.ok none, .error (.fragmentDiscarded 1), .ok none],
        ⟨1, strBytes "foo ".data⟩) := by
  constructor
  · intro st p hst hp hne
    exact asmParse_reject st p (by omega)
  · decide

/-- C4 witness: the general rejection statement applied to a stored counter
of 1 and a repeated `frag_idx = 1` frame. -/
theorem C4_discard_witness :
    Ws6in1Assembler.parse ⟨1, strBytes "foo ".data⟩ c4Frame =
      (.error (.fragmentDiscarded 1), ⟨0, []⟩) :=
  C4_discard_reports_prediscard_and_self_heals.1 ⟨1, strBytes "foo ".data⟩
    c4Frame (by decide) (by decide) (by decide)

set_option maxRecDepth 16384 in
/-- C8: the literal telegram of the spec parses to exactly the stated
record: timestamp 1579282200 via UTC epoch arithmetic, the stated indoor
and outdoor values, and extra sensors 1 and 2 populated. -/
theorem C8_literal_scenario :
    Ws6in1Data.tryFrom litTelegram = .ok litRecord := by
  decide

/-- C5: feeding a fresh assembler `N` frames (`1 ≤ N ≤ 15`) with
`frag_cnt = N` and `frag_idx = 1..N` in order, whose concatenated payloads
fit the capacity and form a valid telegram, returns `none` on each of the
first `N - 1` calls and the parsed record exactly on the `N`th, leaving the
assembler Idle. -/
theorem C5_ordered_fragments_yield_record (N : Nat)
    (frames : List Ws6in1DataFrame) (record : Ws6in1Data)
    (h1 : 1 ≤ N) (hN : N ≤ 15) (hlen : frames.length = N)
    (hhdr : ∀ i (h : i < frames.length), (frames.get ⟨i, h⟩).hdr.frag_cnt = N ∧
      (frames.get ⟨i, h⟩).hdr.frag_idx = i + 1)
    (hcap : ((frames.map fun f => f.payload.data).flatten).length ≤ 256)
    (hint : interpretMessage ((frames.map fun f => f.payload.data).flatten) =
      .ok record) :
    Ws6in1Assembler.run ⟨0, []⟩ frames =
      (List.replicate (N - 1) (.ok none) ++ [.ok (some record)], ⟨0, []⟩) := by
  have hne : frames ≠ [] := by
    intro h
    rw [h] at hlen
    simp at hlen
    omega
  have h := run_accum record N hN frames 0 [] hne (by omega)
    (fun i hh => ⟨(hhdr i hh).1, by rw [(hhdr i hh).2]; omega⟩)
    (by simpa using hcap) (by simpa using hint)
  simpa [hlen] using h

set_option maxRecDepth 16384 in
/-- C5 witness: the three-fragment reassembly of the repository's
`test_good_data_assembly` vector. -/
theorem C5_ordered_fragments_yield_record_witness :
    Ws6in1Assembler.run ⟨0, []⟩ [asmFrame1, asmFrame2, asmFrame3] =
      ([.ok none, .ok none, .ok (some litRecord)], ⟨0, []⟩) := by
  have h := C5_ordered_fragments_yield_record 3
    [asmFrame1, asmFrame2, asmFrame3] litRecord (by decide) (by decide)
    (by decide) (by decide) (by decide) (by decide)
  simpa using h

/-- C6: round-trip — serializing a valid data frame (4-bit fragment fields,
payload of at most 54 bytes) or a valid SetDate/SetTime command into a
sufficiently large buffer and deserializing the produced bytes returns the
original value. -/
theorem C6_round_trip :
    (∀ (f : Ws6in1DataFrame) (size : Nat), 64 ≤ size →
      f.hdr.item_cnt < 65536 → f.hdr.item_idx < 65536 →
      f.hdr.frag_cnt ≤ 15 → f.hdr.frag_idx ≤ 15 →
      f.payload.data.length ≤ 54 → (∀ b ∈ f.payload.data, b < 256) →
      f.serialize (WCursor.init size) = .ok ⟨size, frameBytes f⟩ ∧
      Ws6in1DataFrame.deserialize (RCursor.init (frameBytes f)) =
        .ok (f, ⟨frameBytes f, 64⟩)) ∧
    (∀ (d : Ws6in1SetDate) (size : Nat), 8 ≤ size → d.day < 256 →
      d.month < 256 → d.year < 256 →
      d.serialize (WCursor.init size) = .ok ⟨size, setDateBytes d⟩ ∧
      Ws6in1SetDate.deserialize (RCursor.init (setDateBytes d)) =
        .ok (d, ⟨setDateBytes d, 8⟩)) ∧
    (∀ (t : Ws6in1SetTime) (size : Nat), 8 ≤ size → t.hour < 256 →
      t.min < 256 → t.sec < 256 →
      t.serialize (WCursor.init size) = .ok ⟨size, setTimeBytes t⟩ ∧
      Ws6in1SetTime.deserialize (RCursor.init (setTimeBytes t)) =
        .ok (t, ⟨setTimeBytes t, 8⟩)) := by
  refine ⟨?_, ?_, ?_⟩
  · intro f size hsize hcnt hidx hfc hfi hlen helem
    exact ⟨dataFrame_serialize_eq f size hsize hlen helem,
      dataFrame_deserialize_eq f hlen hcnt hidx hfc hfi⟩
  · intro d size h8 hd hm hy
    exact ⟨setDate_serialize_eq d size h8 hd hm hy, setDate_deserialize_eq d⟩
  · intro t size h8 hh hm hs
    exact ⟨setTime_serialize_eq t size h8 hh hm hs, setTime_deserialize_eq t⟩

/-- C6 witness: the round-trip applied to the repository's test vectors
(the fragment-1 data frame, SetDate 17.03.25, SetTime 17:10:20). -/
theorem C6_round_trip_witness :
    (Ws6in1DataFrame.serialize asmFrame1 (WCursor.init 64) =
        .ok ⟨64, frameBytes asmFrame1⟩ ∧
      Ws6in1DataFrame.deserialize (RCursor.init (frameBytes asmFrame1)) =
        .ok (asmFrame1, ⟨frameBytes asmFrame1, 64⟩)) ∧
    (Ws6in1SetDate.serialize ⟨17, 3, 25⟩ (WCursor.init 8) =
        .ok ⟨8, setDateBytes ⟨17, 3, 25⟩⟩ ∧
      Ws6in1SetDate.deserialize (RCursor.init (setDateBytes ⟨17, 3, 25⟩)) =
        .ok (⟨17, 3, 25⟩, ⟨setDateBytes ⟨17, 3, 25⟩, 8⟩)) ∧
    (Ws6in1SetTime.serialize ⟨17, 10, 20⟩ (WCursor.init 8) =
        .ok ⟨8, setTimeBytes ⟨17, 10, 20⟩⟩ ∧
      Ws6in1SetTime.deserialize (RCursor.init (setTimeBytes ⟨17, 10, 20⟩)) =
        .ok (⟨17, 10, 20⟩, ⟨setTimeBytes ⟨17, 10, 20⟩, 8⟩)) :=
  ⟨C6_round_trip.1 asmFrame1 64 (by decide) (by decide) (by decide)
      (by decide) (by decide) (by decide) (by decide),
   C6_round_trip.2.1 ⟨17, 3, 25⟩ 8 (by decide) (by decide) (by decide)
      (by decide),
   C6_round_trip.2.2 ⟨17, 10, 20⟩ 8 (by decide) (by decide) (by decide)
      (by decide)⟩

/-- C7: sentinel tokens (`"--.-"`, `"--"`) never parse as numbers, yet a
telegram whose mandatory fields parse always succeeds whatever its optional
tokens hold (an optional-field parse failure yields an absent value, never
an error), and the outdoor record is `some` exactly when all nine of its
optional fields parsed. -/
theorem C7_sentinels_and_outdoor_all_or_nothing :
    (parseF32 sentinelDashDot = none ∧ parseF32 sentinelDashes = none ∧
     parseU8 sentinelDashDot = none ∧ parseU8 sentinelDashes = none ∧
     parseU16 sentinelDashDot = none ∧ parseU16 sentinelDashes = none) ∧
    (∀ (t1 t2 t3 t4 t5 t6 t7 t8 t9 t10 t11 t12 t13 t14 t15 t16 t17 t18 t19
        t20 t21 t22 t23 t24 t25 t26 t27 t28 t29 t30 t31 t32 : List Char)
      (pd : DateYMD) (pt : TimeHM) (ti : ℚ) (hi bs ba : Nat),
      parseDate t2 = some pd → parseTime t3 = some pt →
      parseF32 t4 = some ti → parseU8 t5 = some hi →
      parseU16 t14 = some bs → parseU16 t15 = some ba →
      Ws6in1Data.tryFromTokens
        [t1, t2, t3, t4, t5, t6, t7, t8, t9, t10, t11, t12, t13, t14, t15,
         t16, t17, t18, t19, t20, t21, t22, t23, t24, t25, t26, t27, t28,
         t29, t30, t31, t32] =
        .ok ⟨mkTimestamp pd pt, ⟨ti, hi, bs, ba⟩,
          mkOutdoor (parseF32 t6) (parseU8 t7) (parseF32 t8) (parseF32 t9)
            (parseF32 t10) (parseF32 t11) (parseU16 t12) (parseF32 t16)
            (parseF32 t17),
          [mkExt (parseF32 t19) (parseU8 t20), mkExt (parseF32 t21) (parseU8 t22),
           mkExt (parseF32 t23) (parseU8 t24), mkExt (parseF32 t25) (parseU8 t26),
           mkExt (parseF32 t27) (parseU8 t28), mkExt (parseF32 t29) (parseU8 t30),
           mkExt (parseF32 t31) (parseU8 t32)]⟩ ∧
      ((mkOutdoor (parseF32 t6) (parseU8 t7) (parseF32 t8) (parseF32 t9)
          (parseF32 t10) (parseF32 t11) (parseU16 t12) (parseF32 t16)
          (parseF32 t17)).isSome = true ↔
        (parseF32 t6).isSome = true ∧ (parseU8 t7).isSome = true ∧
        (parseF32 t8).isSome = true ∧ (parseF32 t9).isSome = true ∧
        (parseF32 t10).isSome = true ∧ (parseF32 t11).isSome = true ∧
        (parseU16 t12).isSome = true ∧ (parseF32 t16).isSome = true ∧
        (parseF32 t17).isSome = true)) := by
  constructor
  · exact ⟨by decide, by decide, by decide, by decide, by decide, by decide⟩
  · intro t1 t2 t3 t4 t5 t6 t7 t8 t9 t10 t11 t12 t13 t14 t15 t16 t17 t18 t19
      t20 t21 t22 t23 t24 t25 t26 t27 t28 t29 t30 t31 t32 pd pt ti hi bs ba
      h2 h3 h4 h5 h14 h15
    refine ⟨?_, mkOutdoor_isSome _ _ _ _ _ _ _ _ _⟩
    exact tryFromTokens_eval t1 t2 t3 t4 t5 t6 t7 t8 t9 t10 t11 t12 t13 t14
      t15 t16 t17 t18 t19 t20 t21 t22 t23 t24 t25 t26 t27 t28 t29 t30 t31
      t32 [] pd pt ti hi bs ba h2 h3 h4 h5 h14 h15

/-- C7 witness: the grouping statement applied to the 32 tokens of the
literal telegram. -/
theorem C7_sentinels_and_outdoor_all_or_nothing_witness :
    Ws6in1Data.tryFromTokens c7Tokens = .ok c7Record :=
  (C7_sentinels_and_outdoor_all_or_nothing.2 "3".data "2020-01-17".data
    "17:30".data "20.4".data "49".data "6.0".data "60".data "0.0".data
    "0.0".data "0.0".data "0.0".data "129".data "SE".data "1017".data
    "954".data "0".data "-1.2".data "--.-".data "27.3".data "57".data
    "33.4".data "40".data "--.-".data "--".data "--.-".data "--".data
    "--.-".data "--".data "--.-".data "--".data "--.-".data "--".data
    ⟨2020, 1, 17⟩ ⟨17, 30⟩ (mkRat 204 10) 49 1017 954 (by decide) (by decide)
    (by decide) (by decide) (by decide) (by decide)).1

set_option maxRecDepth 16384 in
/-- C9 counterexample: the literal telegram has only 32 tokens — so its
input is exhausted before a 33rd token position is ever reached — and yet it
parses successfully instead of failing with an unexpected-end error. -/
theorem C9_cex_32_token_input_parses :
    (splitWs litTelegram).length = 32 ∧
    Ws6in1Data.tryFrom litTelegram = .ok litRecord := by
  constructor
  · decide
  · decide

set_option maxHeartbeats 1000000 in
/-- C9 (amended): the parser consumes a fixed sequence of 32 tokens (not
33).  For every input whose mandatory-position tokens parse: if any further
token remains after the 32, parsing fails with garbage-end carrying the
first byte of the first extra token, whatever follows it; and on every
proper prefix — the input exhausted at a point where the parser requests a
token — parsing fails with unexpected-end carrying the count of tokens
consumed. -/
theorem C9_amended_fixed_32_token_sequence :
    (∀ (t1 t2 t3 t4 t5 t6 t7 t8 t9 t10 t11 t12 t13 t14 t15 t16 t17 t18 t19
        t20 t21 t22 t23 t24 t25 t26 t27 t28 t29 t30 t31 t32 t33 : List Char)
      (rest : List (List Char))
      (pd : DateYMD) (pt : TimeHM) (ti : ℚ) (hi bs ba : Nat),
      parseDate t2 = some pd → parseTime t3 = some pt →
      parseF32 t4 = some ti → parseU8 t5 = some hi →
      parseU16 t14 = some bs → parseU16 t15 = some ba →
      Ws6in1Data.tryFromTokens
        ([t1, t2, t3, t4, t5, t6, t7, t8, t9, t10, t11, t12, t13, t14, t15,
          t16, t17, t18, t19, t20, t21, t22, t23, t24, t25, t26, t27, t28,
          t29, t30, t31, t32] ++ t33 :: rest) =
        .error (.garbageEnd (firstByte t33))) ∧
    (∀ (t1 t2 t3 t4 t5 t6 t7 t8 t9 t10 t11 t12 t13 t14 t15 t16 t17 t18 t19
        t20 t21 t22 t23 t24 t25 t26 t27 t28 t29 t30 t31 t32 : List Char)
      (pd : DateYMD) (pt : TimeHM) (ti : ℚ) (hi bs ba : Nat),
      parseDate t2 = some pd → parseTime t3 = some pt →
      parseF32 t4 = some ti → parseU8 t5 = some hi →
      parseU16 t14 = some bs → parseU16 t15 = some ba →
      ∀ k, k < 32 →
        Ws6in1Data.tryFromTokens
          ([t1, t2, t3, t4, t5, t6, t7, t8, t9, t10, t11, t12, t13, t14, t15,
            t16, t17, t18, t19, t20, t21, t22, t23, t24, t25, t26, t27, t28,
            t29, t30, t31, t32].take k) = .error (.unexpectedEnd k)) := by
  constructor
  · intro t1 t2 t3 t4 t5 t6 t7 t8 t9 t10 t11 t12 t13 t14 t15 t16 t17 t18 t19
      t20 t21 t22 t23 t24 t25 t26 t27 t28 t29 t30 t31 t32 t33 rest pd pt ti
      hi bs ba h2 h3 h4 h5 h14 h15
    exact tryFromTokens_eval t1 t2 t3 t4 t5 t6 t7 t8 t9 t10 t11 t12 t13 t14
      t15 t16 t17 t18 t19 t20 t21 t22 t23 t24 t25 t26 t27 t28 t29 t30 t31
      t32 (t33 :: rest) pd pt ti hi bs ba h2 h3 h4 h5 h14 h15
  · intro t1 t2 t3 t4 t5 t6 t7 t8 t9 t10 t11 t12 t13 t14 t15 t16 t17 t18 t19
      t20 t21 t22 t23 t24 t25 t26 t27 t28 t29 t30 t31 t32 pd pt ti hi bs ba
      h2 h3 h4 h5 h14 h15 k hk
    interval_cases k <;>
      simp [Ws6in1Data.tryFromTokens, TokenIter.next, TokenIter.fin,
        parseExtPairs, Ws6in1Data.EXT_SENSOR_COUNT, h2, h3, h4, h5, h14, h15,
        bind, Except.bind]

/-- C9 witness: a 33rd token `"X"` after the literal telegram's 32 tokens
produces a garbage-end error carrying the byte `X`. -/
theorem C9_amended_fixed_32_token_sequence_witness :
    Ws6in1Data.tryFromTokens
      ["3".data, "2020-01-17".data, "17:30".data, "20.4".data, "49".data,
       "6.0".data, "60".data, "0.0".data, "0.0".data, "0.0".data, "0.0".data,
       "129".data, "SE".data, "1017".data, "954".data, "0".data, "-1.2".data,
       "--.-".data, "27.3".data, "57".data, "33.4".data, "40".data,
       "--.-".data, "--".data, "--.-".data, "--".data, "--.-".data,
       "--".data, "--.-".data, "--".data, "--.-".data, "--".data, "X".data] =
      .error (.garbageEnd (firstByte "X".data)) :=
  C9_amended_fixed_32_token_sequence.1 "3".data "2020-01-17".data
    "17:30".data "20.4".data "49".data "6.0".data "60".data "0.0".data
    "0.0".data "0.0".data "0.0".data "129".data "SE".data "1017".data
    "954".data "0".data "-1.2".data "--.-".data "27.3".data "57".data
    "33.4".data "40".data "--.-".data "--".data "--.-".data "--".data
    "--.-".data "--".data "--.-".data "--".data "--.-".data "--".data
    "X".data [] ⟨2020, 1, 17⟩ ⟨17, 30⟩ (mkRat 204 10) 49 1017 954 (by decide)
    (by decide) (by decide) (by decide) (by decide) (by decide)

/-- C10: a data frame with header `frag_idx = 0` is never accepted by any
reachable assembler state (stored counter at most 15): the accept test
compares against `frag_idx - 1` in wrapping 8-bit arithmetic, which is 255
for input 0, so the call takes the reject path. -/
theorem C10_frag_idx_zero_never_accepted (st : Ws6in1Assembler)
    (p : Ws6in1DataFrame) (hst : st.frag_idx ≤ 15) (hp : p.hdr.frag_idx = 0) :
    (p.hdr.frag_idx + 255) % 256 = 255 ∧
    st.parse p = (.error (.fragmentDiscarded st.frag_idx), ⟨0, []⟩) := by
  rw [hp]
  exact ⟨rfl, asmParse_reject st p (by rw [hp]; omega)⟩

/-- C10 witness: a mid-assembly state receiving a `frag_idx = 0` frame. -/
theorem C10_frag_idx_zero_witness :
    Ws6in1Assembler.parse ⟨2, [65, 66]⟩ ⟨⟨0, 0, 3, 0⟩, ⟨[67]⟩⟩ =
      (.error (.fragmentDiscarded 2), ⟨0, []⟩) :=
  (C10_frag_idx_zero_never_accepted ⟨2, [65, 66]⟩ ⟨⟨0, 0, 3, 0⟩, ⟨[67]⟩⟩
    (by decide) (by decide)).2

end Ws6in1
